import Mathlib

/-!
Shallow embedding of the device state-reconciliation engine of
`homectl-server` (`src/core/devices.rs`), together with the parts of the
data model (`src/types`) it depends on.  Rust `f32` values are embedded as
exact rationals (`ℚ`), `u64` as `ℕ`, `BTreeMap` as an association list with
replace-on-insert semantics, and side effects (event channel sends,
database writes) as explicit output lists.
-/

namespace Homectl

/-- Modelled from the spec: `SceneId` is an opaque identifier owned by the
scene subsystem; the core only stores and forwards it. -/
abbrev SceneId := String

/-- Modelled from the spec: per-integration identifier. -/
abbrev IntegrationId := String

/-- Modelled from the spec: device identifier within an integration. -/
abbrev DeviceId := String

/-- Modelled from the spec: `DeviceKey` is the composite of
`(IntegrationId, DeviceId)`, used as the store's primary key. -/
structure DeviceKey where
  integration_id : IntegrationId
  device_id : DeviceId
deriving DecidableEq, Repr

/-- Modelled from the spec: the tag of a color-space representation.  The
spec lists xy chromaticity, hue/saturation, correlated color temperature,
HSV and RGB. -/
inductive ColorMode where
  | xyMode
  | hsMode
  | ctMode
  | hsvMode
  | rgbMode
deriving DecidableEq, Repr

/-- Modelled from the spec: `DeviceColor` is a tagged union over color-space
representations.  Component types follow their use in
`src/core/devices.rs` (`cmp_light_color`): xy components and saturation are
floats (embedded as `ℚ`), hue and correlated color temperature are `u64`
(embedded as `ℕ`). -/
inductive DeviceColor where
  | Xy (x y : ℚ)
  | Hs (h : ℕ) (s : ℚ)
  | Ct (ct : ℕ)
  | Hsv (h s v : ℚ)
  | Rgb (r g b : ℕ)
deriving DecidableEq, Repr

/-- The representation tag of a `DeviceColor`. -/
def DeviceColor.mode : DeviceColor → ColorMode
  | .Xy _ _ => .xyMode
  | .Hs _ _ => .hsMode
  | .Ct _ => .ctMode
  | .Hsv _ _ _ => .hsvMode
  | .Rgb _ _ _ => .rgbMode

/-- Modelled from the spec: `Capabilities` advertises which color
representations a device accepts. -/
structure Capabilities where
  supported : List ColorMode
deriving DecidableEq, Repr

/-- Modelled from the spec: `to_device_preferred_mode` converts a color into
the device's preferred representation according to its capability set.  The
conversion arithmetic lives in `src/types/color.rs`, which is not part of
the provided sources; following the spec, conversion normalizes an accepted
representation (returned unchanged) and an unsupported conversion yields no
result. -/
def DeviceColor.to_device_preferred_mode (c : DeviceColor) (capabilities : Capabilities) :
    Option DeviceColor :=
  if c.mode ∈ capabilities.supported then some c else none

/-- Modelled from the spec: `ManageKind` tags whether the store actively
enforces expected state on a device. -/
inductive ManageKind where
  | Unmanaged
  | Full
  | Partial (prev_change_committed : Bool)
deriving DecidableEq, Repr

/-- Modelled from the spec: `ControllableState` is
`\x7b power, color, brightness in [0,1], transition_ms \x7d`. -/
structure ControllableState where
  power : Bool
  color : Option DeviceColor
  brightness : Option ℚ
  transition_ms : Option ℕ
deriving DecidableEq, Repr

/-- Modelled from the spec: the payload of a controllable device: its state,
capability set and management mode (fields as used by
`src/core/devices.rs`). -/
structure ControllableDevice where
  state : ControllableState
  capabilities : Capabilities
  managed : ManageKind
deriving DecidableEq, Repr

/-- Modelled from the spec: a read-only sensor payload, compared only by
exact structural equality. -/
inductive SensorDevice where
  | OnOffSensor (value : Bool)
  | TextSensor (value : String)
deriving DecidableEq, Repr

/-- Modelled from the spec: `data` of a device is a tagged union of the
controllable and sensor variants. -/
inductive DeviceData where
  | Controllable (c : ControllableDevice)
  | Sensor (s : SensorDevice)
deriving DecidableEq, Repr

/-- Modelled from the spec: a `Device` is
`\x7b key, integration_id, name, scene, capabilities, data \x7d`; the key is the
composite of the integration id and the device id. -/
structure Device where
  id : DeviceId
  name : String
  integration_id : IntegrationId
  scene : Option SceneId
  data : DeviceData
deriving DecidableEq, Repr

/-- Modelled from the spec: the canonical composite key of a device. -/
def Device.get_device_key (d : Device) : DeviceKey :=
  ⟨d.integration_id, d.id⟩

/-- Modelled from the spec: returns the device's scene assignment. -/
def Device.get_scene (d : Device) : Option SceneId :=
  d.scene

/-- Modelled from the spec: replaces the device's scene assignment. -/
def Device.set_scene (d : Device) (scene : Option SceneId) : Device :=
  { d with scene := scene }

/-- Modelled from the spec: a device is managed when it is controllable and
its management mode is `Full` or `Partial` (not `Unmanaged`). -/
def Device.is_managed (d : Device) : Bool :=
  match d.data with
  | .Controllable c =>
    match c.managed with
    | .Unmanaged => false
    | _ => true
  | .Sensor _ => false

/-- Modelled from the spec: whether the device is the sensor variant. -/
def Device.is_sensor (d : Device) : Bool :=
  match d.data with
  | .Controllable _ => false
  | .Sensor _ => true

/-- Modelled from the spec: the sensor payload, when the device is a
sensor. -/
def Device.get_sensor_state (d : Device) : Option SensorDevice :=
  match d.data with
  | .Controllable _ => none
  | .Sensor s => some s

/-- Modelled from the spec: the controllable state, when the device is
controllable. -/
def Device.get_controllable_state (d : Device) : Option ControllableState :=
  match d.data with
  | .Controllable c => some c.state
  | .Sensor _ => none

/-- Modelled from the spec: replaces the controllable state of a
controllable device; a sensor is left unchanged. -/
def Device.set_controllable_state (d : Device) (state : ControllableState) : Device :=
  match d.data with
  | .Controllable c => { d with data := .Controllable { c with state := state } }
  | .Sensor _ => d

/-- Modelled from the spec: the capability set of a controllable device
(`None` for sensors). -/
def Device.get_supported_color_modes (d : Device) : Option Capabilities :=
  match d.data with
  | .Controllable c => some c.capabilities
  | .Sensor _ => none

/-- `DevicesState` (`src/types/device.rs` as used by `src/core/devices.rs`):
the ordered mapping from `DeviceKey` to `Device`, embedded as an
association list with replace-on-insert semantics. -/
structure DevicesState where
  entries : List (DeviceKey × Device)
deriving Repr

/-- Map lookup (`BTreeMap::get`). -/
def DevicesState.lookup (s : DevicesState) (k : DeviceKey) : Option Device :=
  (s.entries.find? (fun p => decide (p.1 = k))).map (·.2)

/-- Map insert (`BTreeMap::insert`): replaces the value under an existing
key, otherwise appends. -/
def DevicesState.insert (s : DevicesState) (k : DeviceKey) (d : Device) : DevicesState :=
  if s.entries.any (fun p => decide (p.1 = k)) then
    ⟨s.entries.map (fun p => if p.1 = k then (k, d) else p)⟩
  else
    ⟨s.entries ++ [(k, d)]⟩

/-- `cmp_light_color` (`src/core/devices.rs`): compares light colors in the
color mode preferred by the device, allowing slight deltas to account for
rounding errors.  Evaluates to `true` when the colors match. -/
def cmp_light_color (capabilities : Capabilities) (incoming : Option DeviceColor)
    (incoming_bri : Option ℚ) (expected : Option DeviceColor) (expected_bri : Option ℚ) :
    Bool :=
  -- If brightness mismatches, the light state is not equal (bri_delta = 0.01)
  if |incoming_bri.getD 1 - expected_bri.getD 1| > (1/100 : ℚ) then
    false
  -- Convert expected color to supported color mode before performing the
  -- comparison; if colors are equal by PartialEq, the light state is equal
  else if incoming = expected.bind (·.to_device_preferred_mode capabilities) then
    true
  else
    -- Otherwise compare colors by components, allow slight deltas to
    -- account for rounding errors (hue_delta = 1, sat_delta = 0.01,
    -- xy_delta = 0.01, cct_delta = 10)
    match incoming, expected.bind (·.to_device_preferred_mode capabilities) with
    | some (.Xy ax ay), some (.Xy bx bY) =>
      decide (|ax - bx| ≤ (1/100 : ℚ)) && decide (|ay - bY| ≤ (1/100 : ℚ))
    | some (.Hs ah as_), some (.Hs bh bs) =>
      decide (Nat.dist ah bh ≤ 1) && decide (|as_ - bs| ≤ (1/100 : ℚ))
    | some (.Ct a), some (.Ct b) =>
      decide (Nat.dist a b ≤ 10)
    | _, _ => false

/-- `cmp_device_states` (`src/core/devices.rs`): compares the state of a
`ControllableDevice` to a given `ControllableState`.  Evaluates to `true`
when the states match. -/
def cmp_device_states (device : ControllableDevice) (expected : ControllableState) : Bool :=
  if device.state.power ≠ expected.power then
    false
  else if !device.state.power && !expected.power then
    -- If both lights are turned off, state matches
    true
  else if device.state.color.isSome then
    -- Compare colors if supported
    cmp_light_color device.capabilities device.state.color device.state.brightness
      expected.color expected.brightness
  else
    true

/-- `cmp_sensor_states` (`src/core/devices.rs`): compares the state of two
sensor devices by structural equality. -/
def cmp_sensor_states (sensor : SensorDevice) (previous : SensorDevice) : Bool :=
  decide (sensor = previous)

/-- The scene subsystem, reduced to the contract the core consumes
(`find_scene_device_state(device) -> optional ControllableState`). -/
structure Scenes where
  scene_device_state : Device → Option ControllableState

/-- `Scenes::find_scene_device_state`: scene-supplied state override for a
device. -/
def Scenes.find_scene_device_state (scenes : Scenes) (device : Device) :
    Option ControllableState :=
  scenes.scene_device_state device

/-- The two messages emitted on the event channel by the device store
(`Message::InternalStateUpdate` and `Message::SendDeviceState` of
`src/types/event.rs` as used by `src/core/devices.rs`). -/
inductive Message where
  | InternalStateUpdate (old_state : DevicesState) (new_state : DevicesState)
      (old : Option Device) (new : Device)
  | SendDeviceState (device : Device)

/-- Whether a message is an outbound integration dispatch
(`SendDeviceState`). -/
def Message.isSendDeviceState : Message → Bool
  | .SendDeviceState _ => true
  | _ => false

/-- Whether a message is an internal-state-update notification. -/
def Message.isInternalStateUpdate : Message → Bool
  | .InternalStateUpdate _ _ _ _ => true
  | _ => false

/-- The `Devices` actor state (`src/core/devices.rs`): the device store and
the secondary name index.  The event channel is embedded as explicit output
lists in the operation results instead of a field. -/
structure Devices where
  state : DevicesState
  keys_by_name : List ((IntegrationId × String) × DeviceKey)

/-- `Devices::get_device`: store lookup by key. -/
def Devices.get_device (self : Devices) (device_key : DeviceKey) : Option Device :=
  self.state.lookup device_key

/-- `Devices::get_expected_state` (`src/core/devices.rs`): expected state
for a given device based on a possible active scene; falls back to the
previous (or passed) device state, and defaults brightness to 100% when the
device is powered on. -/
def Devices.get_expected_state (self : Devices) (device : Device) (scenes : Scenes)
    (use_passed_state : Bool) : Option ControllableState :=
  match device.data with
  | .Sensor _ => none
  | .Controllable _ =>
    let scene_device_state :=
      let ignore_transition := use_passed_state
      (scenes.find_scene_device_state device).map (fun state =>
        -- Ignore transition specified by scene if we're setting state
        if ignore_transition then { state with transition_ms := none } else state)
    let expected_state :=
      match scene_device_state with
      -- Return state from active scene
      | some state => some state
      | none =>
        if use_passed_state then
          -- Return passed device state
          device.get_controllable_state
        else
          -- Return previous device state
          ((self.state.lookup device.get_device_key).getD device).get_controllable_state
    -- Make sure brightness is set when device is powered on, defaults to 100%
    expected_state.map (fun st =>
      if st.power then { st with brightness := some (st.brightness.getD 1) } else st)

/-- The result of one `set_device_state` call: the updated actor state, the
committed (returned) device, the internal `state_changed` flag, the
messages sent on the event channel, and the devices upserted into the
database. -/
structure SetResult where
  devices : Devices
  device : Device
  state_changed : Bool
  events : List Message
  db_writes : List Device

/-- `Devices::set_device_state` (`src/core/devices.rs`): sets internal
state for the given device and dispatches device state to the integration.
Effects (event-channel sends, fire-and-forget database upsert) are returned
explicitly. -/
def Devices.set_device_state (self : Devices) (device : Device) (scenes : Scenes)
    (set_scene : Bool) (skip_db : Bool) (skip_send : Bool) : SetResult :=
  let old_states := self.state
  let old := old_states.lookup device.get_device_key
  -- Insert new device into keys_by_name map
  let keys_by_name :=
    if old.isNone then
      ((device.integration_id, device.name), device.get_device_key) :: self.keys_by_name
    else
      self.keys_by_name
  -- Restore scene if set_scene is false
  let device1 :=
    match set_scene, old with
    | false, some o => device.set_scene o.get_scene
    | _, _ => device
  let device2 :=
    if set_scene || device1.is_managed then
      -- Allow active scene to override device state
      let expected_state := self.get_expected_state device1 scenes true
      let capabilities := device1.get_supported_color_modes
      -- Replace device state with expected state
      match expected_state, capabilities with
      | some expected_state, some capabilities =>
        -- Converted expected state into a supported color format
        device1.set_controllable_state
          { expected_state with
            color := expected_state.color.bind (·.to_device_preferred_mode capabilities) }
      | _, _ => device1
    else
      device1
  let new_state := old_states.insert device2.get_device_key device2
  let state_changed := decide (old ≠ some device2)
  let events :=
    (if state_changed then
      [Message.InternalStateUpdate old_states new_state old device2]
    else []) ++
    (if !skip_send && !device2.is_sensor then [Message.SendDeviceState device2] else [])
  let db_writes := if !skip_db && state_changed then [device2] else []
  { devices := { state := new_state, keys_by_name := keys_by_name }
    device := device2
    state_changed := state_changed
    events := events
    db_writes := db_writes }

/-- The observable outcome of `handle_recv_device_state`: the updated actor
state together with the emitted messages and database writes. -/
structure RecvResult where
  devices : Devices
  events : List Message
  db_writes : List Device

/-- Packages a `SetResult` as the outcome of `handle_recv_device_state`. -/
def SetResult.toRecv (r : SetResult) : RecvResult :=
  { devices := r.devices, events := r.events, db_writes := r.db_writes }

/-- `Devices::handle_recv_device_state` (`src/core/devices.rs`): reconciles
a freshly observed device against the store.  The result of the (awaited)
persistence lookup `db_find_device` is passed in as `db_device`; a
data-integrity error is surfaced as `Except.error`. -/
def Devices.handle_recv_device_state (self : Devices) (incoming : Device) (scenes : Scenes)
    (db_device : Option Device) : Except String RecvResult :=
  let current := self.get_device incoming.get_device_key
  -- recompute expected_state here as it may have changed since we last
  -- computed it
  let expected_state := current.bind (fun d => self.get_expected_state d scenes false)
  match incoming.data, current, expected_state with
  -- Device was seen for the first time
  | _, none, _ =>
    match db_device with
    | some db_device =>
      -- Restore device scene from DB
      let scene := db_device.get_scene
      let device := incoming.set_scene scene
      .ok (self.set_device_state device scenes true true (!device.is_managed)).toRecv
    | none =>
      .ok (self.set_device_state incoming scenes true false false).toRecv
  | .Sensor incoming_sensor, some current, _ =>
    match current.get_sensor_state with
    | none =>
      .error "Previous state is not of type SensorDevice: possible ID collision"
    | some previous =>
      -- If there's no change in sensor state, ignore this update
      if cmp_sensor_states incoming_sensor previous then
        .ok { devices := self, events := [], db_writes := [] }
      else
        -- Sensor state has changed, defer handling of this update to
        -- other subsystems
        .ok (self.set_device_state incoming scenes false false false).toRecv
  | .Controllable incoming_state, _, some expected_state =>
    if !incoming.is_managed then
      .ok (self.set_device_state incoming scenes false false true).toRecv
    else if cmp_device_states incoming_state expected_state then
      match incoming_state.managed with
      | .Partial false =>
        -- Set prev_change_committed flag
        let incoming_state' := { incoming_state with managed := .Partial true }
        let incoming' := { incoming with data := .Controllable incoming_state' }
        .ok (self.set_device_state incoming' scenes false false true).toRecv
      | _ =>
        .ok { devices := self, events := [], db_writes := [] }
    else
      -- Device state does not match expected state; emit a corrective
      -- SendDeviceState message back to the integration.  Replace device
      -- state with expected state, converted into a supported color
      -- format, and disable transitions.
      let controllable : ControllableDevice :=
        { incoming_state with
          state :=
            { expected_state with
              color :=
                expected_state.color.bind
                  (·.to_device_preferred_mode incoming_state.capabilities)
              transition_ms := none } }
      let device := { incoming with data := .Controllable controllable }
      .ok { devices := self, events := [Message.SendDeviceState device], db_writes := [] }
  -- Expected device state was not found
  | _, _, none =>
    .ok (self.set_device_state incoming scenes false false false).toRecv

/-- Proof-layer restatement of the scene-restoration step of
`set_device_state` (restore scene if `set_scene` is false and a prior
record exists). -/
def restore_scene_step (set_scene : Bool) (old : Option Device) (device : Device) : Device :=
  match set_scene, old with
  | false, some o => device.set_scene o.get_scene
  | _, _ => device

/-- Proof-layer restatement of the expected-state-overwrite step of
`set_device_state` (allow expected state to override device state when
`set_scene` is set or the device is managed). -/
def apply_expected_step (self : Devices) (scenes : Scenes) (set_scene : Bool)
    (device1 : Device) : Device :=
  if set_scene || device1.is_managed then
    match self.get_expected_state device1 scenes true, device1.get_supported_color_modes with
    | some expected_state, some capabilities =>
      device1.set_controllable_state
        { expected_state with
          color := expected_state.color.bind (·.to_device_preferred_mode capabilities) }
    | _, _ => device1
  else device1

/-! Concrete fixtures used to exercise the definitions on closed inputs. -/

/-- A scene subsystem with no active scene for any device. -/
def emptyScenes : Scenes := ⟨fun _ => none⟩

/-- A sample device key. -/
def key0 : DeviceKey := ⟨"int", "dev"⟩

/-- A controllable state: powered off, no color. -/
def offState : ControllableState :=
  { power := false, color := none, brightness := none, transition_ms := none }

/-- A controllable state: powered on at full brightness, no color. -/
def onState : ControllableState :=
  { power := true, color := none, brightness := some 1, transition_ms := none }

/-- A controllable state: powered on at full brightness with an xy color. -/
def onXyState : ControllableState :=
  { power := true, color := some (.Xy 0 0), brightness := some 1, transition_ms := none }

/-- A capability set accepting no color representation. -/
def caps0 : Capabilities := ⟨[]⟩

/-- A capability set accepting the xy representation. -/
def capsXy : Capabilities := ⟨[.xyMode]⟩

/-- A capability set accepting the hue/saturation representation. -/
def capsHs : Capabilities := ⟨[.hsMode]⟩

/-- A capability set accepting the color-temperature representation. -/
def capsCt : Capabilities := ⟨[.ctMode]⟩

/-- A stored sensor record under `key0`. -/
def sensorRecord : Device :=
  { id := "dev", name := "lamp", integration_id := "int", scene := none,
    data := .Sensor (.OnOffSensor true) }

/-- An incoming sensor observation equal to `sensorRecord`'s payload. -/
def sensorIncomingEq : Device :=
  { id := "dev", name := "lamp", integration_id := "int", scene := none,
    data := .Sensor (.OnOffSensor true) }

/-- An incoming sensor observation differing from `sensorRecord`'s payload. -/
def sensorIncomingNe : Device :=
  { id := "dev", name := "lamp", integration_id := "int", scene := none,
    data := .Sensor (.OnOffSensor false) }

/-- An incoming unmanaged controllable observation under `key0`. -/
def ctrlUnmanagedIncoming : Device :=
  { id := "dev", name := "lamp", integration_id := "int", scene := none,
    data := .Controllable { state := offState, capabilities := caps0, managed := .Unmanaged } }

/-- A stored fully-managed controllable record under `key0`, powered on. -/
def ctrlFullOn : Device :=
  { id := "dev", name := "lamp", integration_id := "int", scene := none,
    data := .Controllable { state := onState, capabilities := caps0, managed := .Full } }

/-- An incoming fully-managed controllable observation under `key0`,
powered off (it drifted from the expected powered-on state). -/
def ctrlFullOffIncoming : Device :=
  { id := "dev", name := "lamp", integration_id := "int", scene := none,
    data := .Controllable { state := offState, capabilities := caps0, managed := .Full } }

/-- A stored partially-managed controllable record under `key0`, powered
off. -/
def ctrlPartialStored : Device :=
  { id := "dev", name := "lamp", integration_id := "int", scene := none,
    data := .Controllable
      { state := offState, capabilities := caps0, managed := .Partial false } }

/-- An incoming partially-managed controllable observation under `key0`
whose previous change is not yet committed and whose state agrees with the
expected state. -/
def ctrlPartialIncoming : Device :=
  { id := "dev", name := "lamp", integration_id := "int", scene := none,
    data := .Controllable
      { state := offState, capabilities := caps0, managed := .Partial false } }

/-- `ctrlPartialIncoming` with its `prev_change_committed` flag flipped to
`true`. -/
def ctrlPartialFlipped : Device :=
  { id := "dev", name := "lamp", integration_id := "int", scene := none,
    data := .Controllable
      { state := offState, capabilities := caps0, managed := .Partial true } }

/-- A stored controllable record under `key0` with scene `"night"`
assigned. -/
def ctrlSceneNight : Device :=
  { id := "dev", name := "lamp", integration_id := "int", scene := some "night",
    data := .Controllable { state := offState, capabilities := caps0, managed := .Unmanaged } }

/-- An incoming device argument under `key0` carrying a different scene. -/
def ctrlSceneOther : Device :=
  { id := "dev", name := "lamp", integration_id := "int", scene := some "other",
    data := .Controllable { state := offState, capabilities := caps0, managed := .Unmanaged } }

/-- A stored fully-managed controllable record under `key0` whose state
carries an xy color unsupported by its capability set. -/
def ctrlXyStored : Device :=
  { id := "dev", name := "lamp", integration_id := "int", scene := none,
    data := .Controllable { state := onXyState, capabilities := caps0, managed := .Full } }

/-- An incoming observation identical to `ctrlXyStored` except for its
`transition_ms` field. -/
def ctrlXyIncoming : Device :=
  { id := "dev", name := "lamp", integration_id := "int", scene := none,
    data := .Controllable
      { state := { onXyState with transition_ms := some 500 },
        capabilities := caps0, managed := .Full } }

/-- A store holding only `sensorRecord`. -/
def storeSensor : Devices := ⟨⟨[(key0, sensorRecord)]⟩, []⟩

/-- A store holding only `ctrlFullOn`. -/
def storeFullOn : Devices := ⟨⟨[(key0, ctrlFullOn)]⟩, []⟩

/-- A store holding only `ctrlPartialStored`. -/
def storePartial : Devices := ⟨⟨[(key0, ctrlPartialStored)]⟩, []⟩

/-- A store holding only `ctrlSceneNight`. -/
def storeSceneNight : Devices := ⟨⟨[(key0, ctrlSceneNight)]⟩, []⟩

/-- A store holding only `ctrlXyStored`. -/
def storeXy : Devices := ⟨⟨[(key0, ctrlXyStored)]⟩, []⟩

/-- The empty store. -/
def storeEmpty : Devices := ⟨⟨[]⟩, []⟩

/-! Helper lemmas about the data model. -/

@[simp]
theorem Device.get_device_key_set_scene (d : Device) (s : Option SceneId) :
    (d.set_scene s).get_device_key = d.get_device_key := rfl

@[simp]
theorem Device.get_scene_set_scene (d : Device) (s : Option SceneId) :
    (d.set_scene s).get_scene = s := rfl

@[simp]
theorem Device.data_set_scene (d : Device) (s : Option SceneId) :
    (d.set_scene s).data = d.data := rfl

@[simp]
theorem Device.is_managed_set_scene (d : Device) (s : Option SceneId) :
    (d.set_scene s).is_managed = d.is_managed := rfl

@[simp]
theorem Device.is_sensor_set_scene (d : Device) (s : Option SceneId) :
    (d.set_scene s).is_sensor = d.is_sensor := rfl

theorem Device.set_scene_set_scene (d : Device) (s s' : Option SceneId) :
    (d.set_scene s).set_scene s' = d.set_scene s' := rfl

theorem Device.set_scene_scene_self (d : Device) : d.set_scene d.scene = d := rfl

theorem Device.set_scene_get_scene_self (d : Device) : d.set_scene d.get_scene = d := rfl

@[simp]
theorem Device.scene_set_controllable_state (d : Device) (st : ControllableState) :
    (d.set_controllable_state st).scene = d.scene := by
  rcases d with ⟨i, n, iid, sc, data⟩
  cases data <;> rfl

@[simp]
theorem Device.get_device_key_set_controllable_state (d : Device) (st : ControllableState) :
    (d.set_controllable_state st).get_device_key = d.get_device_key := by
  rcases d with ⟨i, n, iid, sc, data⟩
  cases data <;> rfl

theorem Device.data_set_controllable_state (d : Device) (c : ControllableDevice)
    (st : ControllableState) (h : d.data = .Controllable c) :
    (d.set_controllable_state st).data = .Controllable { c with state := st } := by
  rcases d with ⟨i, n, iid, sc, data⟩
  cases h
  rfl

theorem List.find?_map_replace (l : List (DeviceKey × Device)) (k : DeviceKey) (d : Device)
    (h : l.any (fun p => decide (p.1 = k)) = true) :
    (l.map (fun p => if p.1 = k then (k, d) else p)).find? (fun p => decide (p.1 = k)) =
      some (k, d) := by
  induction l with
  | nil => simp at h
  | cons p tl ih =>
    by_cases hp : p.1 = k
    · simp [hp, List.find?_cons]
    · simp only [List.any_cons, hp, decide_False, Bool.false_or] at h
      simp [List.find?_cons, hp, ih h]

theorem List.find?_append_new (l : List (DeviceKey × Device)) (k : DeviceKey) (d : Device)
    (h : l.any (fun p => decide (p.1 = k)) = false) :
    (l ++ [(k, d)]).find? (fun p => decide (p.1 = k)) = some (k, d) := by
  induction l with
  | nil => simp [List.find?_cons]
  | cons p tl ih =>
    simp only [List.any_cons, Bool.or_eq_false_iff, decide_eq_false_iff_not] at h
    simp [List.find?_cons, h.1, ih (by simpa using h.2)]

theorem DevicesState.lookup_insert_self (s : DevicesState) (k : DeviceKey) (d : Device) :
    (s.insert k d).lookup k = some d := by
  unfold DevicesState.insert DevicesState.lookup
  by_cases h : s.entries.any (fun p => decide (p.1 = k)) = true
  · rw [if_pos h, List.find?_map_replace s.entries k d h]
    rfl
  · simp only [Bool.not_eq_true] at h
    rw [if_neg (by simp [h]), List.find?_append_new s.entries k d h]
    rfl

theorem Devices.get_expected_state_passed (s₁ s₂ : Devices) (dev : Device) (sc : Scenes) :
    s₁.get_expected_state dev sc true = s₂.get_expected_state dev sc true := by
  cases h : dev.data <;> simp [Devices.get_expected_state, h]

theorem Devices.set_device_state_device_key (self : Devices) (d : Device) (scenes : Scenes)
    (ss sdb ssend : Bool) :
    (self.set_device_state d scenes ss sdb ssend).device.get_device_key = d.get_device_key := by
  cases ss <;> rcases hold : self.state.lookup d.get_device_key with _ | o <;>
    simp only [Devices.set_device_state, hold] <;>
    (repeat' split) <;>
    simp

theorem Devices.set_device_state_devices_state (self : Devices) (d : Device) (scenes : Scenes)
    (ss sdb ssend : Bool) :
    (self.set_device_state d scenes ss sdb ssend).devices.state =
      self.state.insert d.get_device_key
        ((self.set_device_state d scenes ss sdb ssend).device) := by
  rw [← Devices.set_device_state_device_key self d scenes ss sdb ssend]
  rfl

@[simp]
theorem Device.scene_set_scene (d : Device) (s : Option SceneId) :
    (d.set_scene s).scene = s := rfl

theorem Devices.set_device_state_device_data (self : Devices) (d : Device) (scenes : Scenes)
    (ss sdb ssend : Bool) (c : ControllableDevice) (h : d.data = .Controllable c) :
    ∃ st, (self.set_device_state d scenes ss sdb ssend).device.data =
      .Controllable { c with state := st } := by
  cases ss <;> rcases hold : self.state.lookup d.get_device_key with _ | o <;>
    simp only [Devices.set_device_state, hold] <;>
    (repeat' split) <;>
    first
      | exact ⟨_, Device.data_set_controllable_state _ c _ (by simp [h])⟩
      | exact ⟨c.state, by simp [h]⟩

theorem Devices.set_device_state_skip_send (self : Devices) (d : Device) (scenes : Scenes)
    (ss sdb : Bool) :
    ((self.set_device_state d scenes ss sdb true).events.all
      fun m => !m.isSendDeviceState) = true := by
  unfold Devices.set_device_state
  simp [Message.isSendDeviceState]

theorem Devices.set_device_state_scene_restored (self : Devices) (d : Device) (scenes : Scenes)
    (sdb ssend : Bool) (o : Device) (h : self.state.lookup d.get_device_key = some o) :
    (self.set_device_state d scenes false sdb ssend).device.get_scene = o.get_scene := by
  unfold Devices.set_device_state
  simp only [h]
  (repeat' split) <;> simp [Device.get_scene]

theorem restore_scene_step_true (old : Option Device) (d : Device) :
    restore_scene_step true old d = d := rfl

theorem restore_scene_step_none (ss : Bool) (d : Device) :
    restore_scene_step ss none d = d := by cases ss <;> rfl

theorem restore_scene_step_some (o : Device) (d : Device) :
    restore_scene_step false (some o) d = d.set_scene o.get_scene := rfl

theorem apply_expected_step_congr (s₁ s₂ : Devices) (scenes : Scenes) (ss : Bool)
    (d : Device) :
    apply_expected_step s₁ scenes ss d = apply_expected_step s₂ scenes ss d := by
  unfold apply_expected_step
  rw [Devices.get_expected_state_passed s₁ s₂ d scenes]

theorem apply_expected_step_scene (self : Devices) (scenes : Scenes) (ss : Bool)
    (d : Device) :
    (apply_expected_step self scenes ss d).get_scene = d.get_scene := by
  unfold apply_expected_step
  (repeat' split) <;> simp [Device.get_scene]

theorem Devices.set_device_state_device_char (self : Devices) (device : Device)
    (scenes : Scenes) (ss sdb ssend : Bool) :
    (self.set_device_state device scenes ss sdb ssend).device =
      apply_expected_step self scenes ss
        (restore_scene_step ss (self.state.lookup device.get_device_key) device) := by
  unfold Devices.set_device_state apply_expected_step restore_scene_step
  rfl

theorem Devices.set_device_state_changed_char (self : Devices) (device : Device)
    (scenes : Scenes) (ss sdb ssend : Bool) :
    (self.set_device_state device scenes ss sdb ssend).state_changed =
      decide (self.state.lookup device.get_device_key ≠
        some (self.set_device_state device scenes ss sdb ssend).device) := rfl

theorem Devices.set_device_state_events_char (self : Devices) (device : Device)
    (scenes : Scenes) (ss sdb ssend : Bool) :
    (self.set_device_state device scenes ss sdb ssend).events =
      (if (self.set_device_state device scenes ss sdb ssend).state_changed then
        [Message.InternalStateUpdate self.state
          (self.state.insert
            (self.set_device_state device scenes ss sdb ssend).device.get_device_key
            (self.set_device_state device scenes ss sdb ssend).device)
          (self.state.lookup device.get_device_key)
          (self.set_device_state device scenes ss sdb ssend).device]
      else []) ++
      (if !ssend && !(self.set_device_state device scenes ss sdb ssend).device.is_sensor then
        [Message.SendDeviceState (self.set_device_state device scenes ss sdb ssend).device]
      else []) := rfl

theorem Devices.set_device_state_db_char (self : Devices) (device : Device)
    (scenes : Scenes) (ss sdb ssend : Bool) :
    (self.set_device_state device scenes ss sdb ssend).db_writes =
      (if !sdb && (self.set_device_state device scenes ss sdb ssend).state_changed then
        [(self.set_device_state device scenes ss sdb ssend).device]
      else []) := rfl

theorem Devices.set_device_state_stable (self : Devices) (device : Device) (scenes : Scenes)
    (ss sdb ssend : Bool) :
    ((self.set_device_state device scenes ss sdb ssend).devices.set_device_state
        device scenes ss sdb ssend).device =
      (self.set_device_state device scenes ss sdb ssend).device := by
  have hlook : (self.set_device_state device scenes ss sdb ssend).devices.state.lookup
      device.get_device_key =
      some ((self.set_device_state device scenes ss sdb ssend).device) := by
    rw [Devices.set_device_state_devices_state]
    exact DevicesState.lookup_insert_self _ _ _
  rw [Devices.set_device_state_device_char, hlook,
    Devices.set_device_state_device_char self device scenes ss sdb ssend,
    apply_expected_step_congr ((self.set_device_state device scenes ss sdb ssend).devices) self]
  cases ss
  · rcases hold : self.state.lookup device.get_device_key with _ | o
    · rw [restore_scene_step_none, restore_scene_step_some, apply_expected_step_scene]
      exact congrArg _ (Device.set_scene_get_scene_self device)
    · simp only [restore_scene_step_some, apply_expected_step_scene, Device.get_scene_set_scene]
  · simp only [restore_scene_step_true]

/-! Theorems settling the claims. -/

/-- C9: the expected-state resolver returns `none` for every sensor device;
for controllable devices, every resolved state with `power = true` has a
defined brightness, and when the underlying source (scene override, passed
state, or stored state) carries no explicit brightness, the brightness
defaults to 1. -/
theorem expected_state_sensor_none_and_brightness_default :
    (∀ (self : Devices) (dev : Device) (scenes : Scenes) (up : Bool) (s : SensorDevice),
       dev.data = .Sensor s → self.get_expected_state dev scenes up = none) ∧
    (∀ (self : Devices) (dev : Device) (scenes : Scenes) (up : Bool) (st : ControllableState),
       self.get_expected_state dev scenes up = some st → st.power = true →
       st.brightness.isSome = true) ∧
    (∀ (self : Devices) (dev : Device) (scenes : Scenes) (up : Bool)
       (c : ControllableDevice) (sc_st : ControllableState),
       dev.data = .Controllable c → scenes.find_scene_device_state dev = some sc_st →
       sc_st.power = true → sc_st.brightness = none →
       self.get_expected_state dev scenes up =
         some { sc_st with
                transition_ms := if up then none else sc_st.transition_ms
                brightness := some 1 }) ∧
    (∀ (self : Devices) (dev : Device) (scenes : Scenes) (c : ControllableDevice),
       dev.data = .Controllable c → scenes.find_scene_device_state dev = none →
       c.state.power = true → c.state.brightness = none →
       self.get_expected_state dev scenes true = some { c.state with brightness := some 1 }) ∧
    (∀ (self : Devices) (dev cur : Device) (scenes : Scenes)
       (c cc : ControllableDevice),
       dev.data = .Controllable c → scenes.find_scene_device_state dev = none →
       self.state.lookup dev.get_device_key = some cur → cur.data = .Controllable cc →
       cc.state.power = true → cc.state.brightness = none →
       self.get_expected_state dev scenes false =
         some { cc.state with brightness := some 1 }) := by
  refine ⟨?_, ?_, ?_, ?_, ?_⟩
  · intro self dev scenes up s h
    simp [Devices.get_expected_state, h]
  · intro self dev scenes up st h hp
    unfold Devices.get_expected_state at h
    rcases hd : dev.data with c | s <;> rw [hd] at h
    · rcases Option.map_eq_some'.mp h with ⟨st₀, _, hpost⟩
      by_cases hpw : st₀.power
      · rw [if_pos hpw] at hpost
        rw [← hpost]
        simp
      · rw [if_neg hpw] at hpost
        rw [← hpost] at hp
        exact absurd hp hpw
    · exact absurd h (by simp)
  · intro self dev scenes up c sc_st hd hsc hp hb
    unfold Devices.get_expected_state
    rw [hd]
    cases up <;> simp [hsc, hp, hb]
  · intro self dev scenes c hd hsc hp hb
    unfold Devices.get_expected_state
    rw [hd]
    simp [hsc, Device.get_controllable_state, hd, hp, hb]
  · intro self dev cur scenes c cc hd hsc hcur hcc hp hb
    unfold Devices.get_expected_state
    rw [hd]
    simp [hsc, hcur, Device.get_controllable_state, hcc, hp, hb]

/-- C9 witness: concrete instances of the sensor and scene-override cases. -/
theorem expected_state_sensor_none_and_brightness_default_witness :
    storeEmpty.get_expected_state sensorRecord emptyScenes false = none ∧
    storeSceneNight.get_expected_state ctrlSceneNight
      ⟨fun _ => some { power := true, color := none, brightness := none,
                       transition_ms := some 40 }⟩ false =
      some { power := true, color := none, brightness := some 1,
             transition_ms := some 40 } := by
  constructor
  · exact expected_state_sensor_none_and_brightness_default.1 storeEmpty sensorRecord
      emptyScenes false (.OnOffSensor true) rfl
  · exact expected_state_sensor_none_and_brightness_default.2.2.1 storeSceneNight
      ctrlSceneNight _ false
      { state := offState, capabilities := caps0, managed := .Unmanaged }
      { power := true, color := none, brightness := none, transition_ms := some 40 }
      rfl rfl rfl rfl

/-- C5: for every call of `set_device_state` with `set_scene = false` on a
key whose prior record exists, the committed device carries the prior
record's scene assignment, regardless of the scene carried by the incoming
device argument. -/
theorem set_device_state_scene_sticky (self : Devices) (device : Device) (scenes : Scenes)
    (skip_db skip_send : Bool) (old : Device)
    (h : self.state.lookup device.get_device_key = some old) :
    (self.set_device_state device scenes false skip_db skip_send).device.get_scene =
      old.get_scene :=
  Devices.set_device_state_scene_restored self device scenes skip_db skip_send old h

/-- C5 witness: committing a device that carries scene `"other"` over a
stored record with scene `"night"`, with `set_scene = false`, preserves
scene `"night"`. -/
theorem set_device_state_scene_sticky_witness :
    (storeSceneNight.set_device_state ctrlSceneOther emptyScenes false false false).device.get_scene
      = some "night" :=
  set_device_state_scene_sticky storeSceneNight ctrlSceneOther emptyScenes false false
    ctrlSceneNight rfl

/-- C6: `set_device_state` is idempotent with respect to change detection:
committing the identical device argument twice with the same scene lookup
and flags produces `state_changed = false` on the second call, and the
second call emits no internal-state-update notification and no persistence
write. -/
theorem set_device_state_idempotent (self : Devices) (device : Device) (scenes : Scenes)
    (set_scene skip_db skip_send : Bool) :
    ((self.set_device_state device scenes set_scene skip_db skip_send).devices.set_device_state
        device scenes set_scene skip_db skip_send).state_changed = false ∧
    (((self.set_device_state device scenes set_scene skip_db skip_send).devices.set_device_state
        device scenes set_scene skip_db skip_send).events.all
      fun m => !m.isInternalStateUpdate) = true ∧
    ((self.set_device_state device scenes set_scene skip_db skip_send).devices.set_device_state
        device scenes set_scene skip_db skip_send).db_writes = [] := by
  have hlook : (self.set_device_state device scenes set_scene skip_db skip_send).devices.state.lookup
      device.get_device_key =
      some ((self.set_device_state device scenes set_scene skip_db skip_send).device) := by
    rw [Devices.set_device_state_devices_state]
    exact DevicesState.lookup_insert_self _ _ _
  have hchanged : ((self.set_device_state device scenes set_scene skip_db
      skip_send).devices.set_device_state device scenes set_scene skip_db
      skip_send).state_changed = false := by
    rw [Devices.set_device_state_changed_char, hlook, Devices.set_device_state_stable]
    simp
  refine ⟨hchanged, ?_, ?_⟩
  · rw [Devices.set_device_state_events_char, hchanged]
    split <;> simp_all [Message.isInternalStateUpdate]
  · rw [Devices.set_device_state_db_char, hchanged]
    simp

/-- C7: an incoming sensor observation whose payload is structurally equal
to the stored sensor payload for the same key is discarded — the store is
unchanged and no message and no persistence write is emitted; any
structural difference causes a commit through `set_device_state` with
`set_scene = false`, `skip_db = false`, `skip_send = false`. -/
theorem handle_recv_sensor_exact_equality :
    (∀ (self : Devices) (incoming : Device) (scenes : Scenes) (db_device : Option Device)
       (s : SensorDevice) (cur : Device) (prev : SensorDevice),
       incoming.data = .Sensor s →
       self.get_device incoming.get_device_key = some cur →
       cur.get_sensor_state = some prev →
       s = prev →
       self.handle_recv_device_state incoming scenes db_device =
         .ok { devices := self, events := [], db_writes := [] }) ∧
    (∀ (self : Devices) (incoming : Device) (scenes : Scenes) (db_device : Option Device)
       (s : SensorDevice) (cur : Device) (prev : SensorDevice),
       incoming.data = .Sensor s →
       self.get_device incoming.get_device_key = some cur →
       cur.get_sensor_state = some prev →
       s ≠ prev →
       self.handle_recv_device_state incoming scenes db_device =
         .ok (self.set_device_state incoming scenes false false false).toRecv) := by
  constructor
  · intro self incoming scenes db_device s cur prev hd hcur hprev hsp
    unfold Devices.handle_recv_device_state
    simp [hd, hcur, hprev, cmp_sensor_states, hsp]
  · intro self incoming scenes db_device s cur prev hd hcur hprev hsp
    unfold Devices.handle_recv_device_state
    simp [hd, hcur, hprev, cmp_sensor_states, hsp]

/-- C7 witness: a concrete equal sensor update is dropped with no effects,
and a concrete changed sensor update is committed. -/
theorem handle_recv_sensor_exact_equality_witness :
    storeSensor.handle_recv_device_state sensorIncomingEq emptyScenes none =
      .ok { devices := storeSensor, events := [], db_writes := [] } ∧
    storeSensor.handle_recv_device_state sensorIncomingNe emptyScenes none =
      .ok (storeSensor.set_device_state sensorIncomingNe emptyScenes false false false).toRecv := by
  constructor
  · exact handle_recv_sensor_exact_equality.1 storeSensor sensorIncomingEq emptyScenes none
      (.OnOffSensor true) sensorRecord (.OnOffSensor true) rfl rfl rfl rfl
  · exact handle_recv_sensor_exact_equality.2 storeSensor sensorIncomingNe emptyScenes none
      (.OnOffSensor false) sensorRecord (.OnOffSensor true) rfl rfl rfl (by decide)

/-- C1: a managed controllable device whose incoming observed state is not
equal (per the tolerance comparator) to its resolved expected state causes
reconcile to emit exactly one corrective `SendDeviceState` command,
addressed to the incoming device's identity, carrying the expected state
with its color converted to the device's preferred representation and
`transition_ms = none`; the store, notifications and persistence are left
untouched. -/
theorem handle_recv_drift_corrective_dispatch
    (self : Devices) (incoming : Device) (scenes : Scenes) (db_device : Option Device)
    (inc_state : ControllableDevice) (cur : Device) (expected : ControllableState)
    (hd : incoming.data = .Controllable inc_state)
    (hm : incoming.is_managed = true)
    (hcur : self.get_device incoming.get_device_key = some cur)
    (hexp : self.get_expected_state cur scenes false = some expected)
    (hcmp : cmp_device_states inc_state expected = false) :
    self.handle_recv_device_state incoming scenes db_device =
      .ok { devices := self
            events := [Message.SendDeviceState
              { incoming with
                data := .Controllable
                  { inc_state with
                    state :=
                      { expected with
                        color := expected.color.bind
                          (·.to_device_preferred_mode inc_state.capabilities)
                        transition_ms := none } } }]
            db_writes := [] } := by
  unfold Devices.handle_recv_device_state
  simp [hd, hcur, hexp, hm, hcmp]

/-- C1 witness: a fully-managed light expected on at full brightness but
observed off receives exactly one corrective dispatch carrying the
expected state, while the store keeps its last-known record. -/
theorem handle_recv_drift_corrective_dispatch_witness :
    storeFullOn.handle_recv_device_state ctrlFullOffIncoming emptyScenes none =
      .ok { devices := storeFullOn
            events := [Message.SendDeviceState ctrlFullOn]
            db_writes := [] } :=
  handle_recv_drift_corrective_dispatch storeFullOn ctrlFullOffIncoming emptyScenes none
    ⟨offState, caps0, .Full⟩ ctrlFullOn onState rfl rfl rfl rfl rfl

/-- C4: a managed controllable device in `Partial` mode with
`prev_change_committed = false` whose state compares equal to its resolved
expected state is committed exactly once with the flag flipped to `true`
and `skip_send = true` (so the commit triggers no outbound integration
dispatch); when the flag is already `true` or the kind is `Full`, nothing
is committed at all. -/
theorem handle_recv_partial_echo :
    (∀ (self : Devices) (incoming : Device) (scenes : Scenes) (db_device : Option Device)
       (inc_state : ControllableDevice) (cur : Device) (expected : ControllableState),
       incoming.data = .Controllable inc_state →
       inc_state.managed = .Partial false →
       self.get_device incoming.get_device_key = some cur →
       self.get_expected_state cur scenes false = some expected →
       cmp_device_states inc_state expected = true →
       (self.handle_recv_device_state incoming scenes db_device =
         .ok (self.set_device_state
           { incoming with data := .Controllable { inc_state with managed := .Partial true } }
           scenes false false true).toRecv) ∧
       (∃ st, (self.set_device_state
           { incoming with data := .Controllable { inc_state with managed := .Partial true } }
           scenes false false true).device.data =
         .Controllable { state := st, capabilities := inc_state.capabilities,
                         managed := .Partial true }) ∧
       ((self.set_device_state
           { incoming with data := .Controllable { inc_state with managed := .Partial true } }
           scenes false false true).events.all fun m => !m.isSendDeviceState) = true) ∧
    (∀ (self : Devices) (incoming : Device) (scenes : Scenes) (db_device : Option Device)
       (inc_state : ControllableDevice) (cur : Device) (expected : ControllableState),
       incoming.data = .Controllable inc_state →
       (inc_state.managed = .Partial true ∨ inc_state.managed = .Full) →
       self.get_device incoming.get_device_key = some cur →
       self.get_expected_state cur scenes false = some expected →
       cmp_device_states inc_state expected = true →
       self.handle_recv_device_state incoming scenes db_device =
         .ok { devices := self, events := [], db_writes := [] }) := by
  constructor
  · intro self incoming scenes db_device inc_state cur expected hd hmk hcur hexp hcmp
    have hm : incoming.is_managed = true := by
      simp [Device.is_managed, hd, hmk]
    refine ⟨?_, ?_, ?_⟩
    · unfold Devices.handle_recv_device_state
      simp [hd, hcur, hexp, hm, hcmp, hmk]
    · exact Devices.set_device_state_device_data self _ scenes false false true
        { inc_state with managed := .Partial true } rfl
    · exact Devices.set_device_state_skip_send self _ scenes false false
  · intro self incoming scenes db_device inc_state cur expected hd hmk hcur hexp hcmp
    have hm : incoming.is_managed = true := by
      rcases hmk with hmk | hmk <;> simp [Device.is_managed, hd, hmk]
    unfold Devices.handle_recv_device_state
    rcases hmk with hmk | hmk <;> simp [hd, hcur, hexp, hm, hcmp, hmk]

/-- C4 witness: a concrete partially-managed device whose previous change
was not yet committed, observing a state equal to its expected state, is
committed once with the flag flipped and without outbound dispatch; the
same observation with the flag already set commits nothing. -/
theorem handle_recv_partial_echo_witness :
    (storePartial.handle_recv_device_state ctrlPartialIncoming emptyScenes none =
      .ok (storePartial.set_device_state ctrlPartialFlipped emptyScenes
        false false true).toRecv) ∧
    (∃ st, (storePartial.set_device_state ctrlPartialFlipped emptyScenes
        false false true).device.data =
      .Controllable { state := st, capabilities := caps0, managed := .Partial true }) ∧
    ((storePartial.set_device_state ctrlPartialFlipped emptyScenes
        false false true).events.all fun m => !m.isSendDeviceState) = true :=
  handle_recv_partial_echo.1 storePartial ctrlPartialIncoming emptyScenes none
    ⟨offState, caps0, .Partial false⟩ ctrlPartialStored offState rfl rfl rfl rfl rfl

/-- C3 counterexample: an incoming controllable payload for a key whose
stored record is a sensor is NOT surfaced as an error — reconcile returns
`ok` and commits the incoming device, replacing the stored sensor record.
This refutes the claim that the variant mismatch is surfaced in both
directions. -/
theorem handle_recv_variant_mismatch_counterexample :
    (storeSensor.handle_recv_device_state ctrlUnmanagedIncoming emptyScenes none =
      .ok (storeSensor.set_device_state ctrlUnmanagedIncoming emptyScenes
        false false false).toRecv) ∧
    (storeSensor.set_device_state ctrlUnmanagedIncoming emptyScenes
      false false false).devices.state.lookup key0 = some ctrlUnmanagedIncoming ∧
    sensorRecord ≠ ctrlUnmanagedIncoming := by
  refine ⟨rfl, rfl, by decide⟩

/-- C3 (amended): a sensor payload arriving for a stored controllable
record under the same key surfaces a data-integrity error and does not
mutate the store; in the opposite direction — a controllable payload
arriving for a stored sensor record — reconcile does not error but commits
the incoming device as if no expected state were resolvable. -/
theorem handle_recv_variant_mismatch :
    (∀ (self : Devices) (incoming : Device) (scenes : Scenes) (db_device : Option Device)
       (s : SensorDevice) (cur : Device) (cc : ControllableDevice),
       incoming.data = .Sensor s →
       self.get_device incoming.get_device_key = some cur →
       cur.data = .Controllable cc →
       self.handle_recv_device_state incoming scenes db_device =
         .error "Previous state is not of type SensorDevice: possible ID collision") ∧
    (∀ (self : Devices) (incoming : Device) (scenes : Scenes) (db_device : Option Device)
       (c : ControllableDevice) (cur : Device) (s : SensorDevice),
       incoming.data = .Controllable c →
       self.get_device incoming.get_device_key = some cur →
       cur.data = .Sensor s →
       self.handle_recv_device_state incoming scenes db_device =
         .ok (self.set_device_state incoming scenes false false false).toRecv) := by
  constructor
  · intro self incoming scenes db_device s cur cc hd hcur hcc
    unfold Devices.handle_recv_device_state
    simp [hd, hcur, Device.get_sensor_state, hcc]
  · intro self incoming scenes db_device c cur s hd hcur hcc
    have hexp : self.get_expected_state cur scenes false = none := by
      simp [Devices.get_expected_state, hcc]
    unfold Devices.handle_recv_device_state
    simp [hd, hcur, hexp]

/-- C3 witness: concrete instances of both directions of the amended
claim. -/
theorem handle_recv_variant_mismatch_witness :
    (storeFullOn.handle_recv_device_state sensorIncomingEq emptyScenes none =
      .error "Previous state is not of type SensorDevice: possible ID collision") ∧
    (storeSensor.handle_recv_device_state ctrlFullOffIncoming emptyScenes none =
      .ok (storeSensor.set_device_state ctrlFullOffIncoming emptyScenes
        false false false).toRecv) := by
  constructor
  · exact handle_recv_variant_mismatch.1 storeFullOn sensorIncomingEq emptyScenes none
      (.OnOffSensor true) ctrlFullOn ⟨onState, caps0, .Full⟩ rfl rfl rfl
  · exact handle_recv_variant_mismatch.2 storeSensor ctrlFullOffIncoming emptyScenes none
      ⟨offState, caps0, .Full⟩ sensorRecord (.OnOffSensor true) rfl rfl rfl

/-- C8: the color comparator's tolerance thresholds are inclusive: with
absent brightness treated as 1, a brightness difference strictly above
0.01 is unequal and a difference up to and including 0.01 passes; for
matching representations after conversion, xy components within 0.01 per
axis pass and a larger delta fails, hue within 1 (with saturation within
0.01) passes and a hue delta of 2 or more fails, correlated color
temperature within 10 passes and a delta of 11 or more fails; any pairing
of different representations after conversion is unequal. -/
theorem cmp_light_color_tolerances :
    (∀ (caps : Capabilities) (inc exp : Option DeviceColor) (ib eb : Option ℚ),
       |ib.getD 1 - eb.getD 1| > (1/100 : ℚ) →
       cmp_light_color caps inc ib exp eb = false) ∧
    (∀ (caps : Capabilities) (ib eb : Option ℚ),
       cmp_light_color caps none ib none eb =
         decide (|ib.getD 1 - eb.getD 1| ≤ (1/100 : ℚ))) ∧
    (∀ (caps : Capabilities) (ec : DeviceColor) (ax ay bx bY : ℚ) (ib eb : Option ℚ),
       |ib.getD 1 - eb.getD 1| ≤ (1/100 : ℚ) →
       ec.to_device_preferred_mode caps = some (.Xy bx bY) →
       |ax - bx| ≤ (1/100 : ℚ) → |ay - bY| ≤ (1/100 : ℚ) →
       cmp_light_color caps (some (.Xy ax ay)) ib (some ec) eb = true) ∧
    (∀ (caps : Capabilities) (ec : DeviceColor) (ax ay bx bY : ℚ) (ib eb : Option ℚ),
       ec.to_device_preferred_mode caps = some (.Xy bx bY) →
       (|ax - bx| > (1/100 : ℚ) ∨ |ay - bY| > (1/100 : ℚ)) →
       cmp_light_color caps (some (.Xy ax ay)) ib (some ec) eb = false) ∧
    (∀ (caps : Capabilities) (ec : DeviceColor) (ah bh : ℕ) (as_ bs : ℚ) (ib eb : Option ℚ),
       |ib.getD 1 - eb.getD 1| ≤ (1/100 : ℚ) →
       ec.to_device_preferred_mode caps = some (.Hs bh bs) →
       Nat.dist ah bh ≤ 1 → |as_ - bs| ≤ (1/100 : ℚ) →
       cmp_light_color caps (some (.Hs ah as_)) ib (some ec) eb = true) ∧
    (∀ (caps : Capabilities) (ec : DeviceColor) (ah bh : ℕ) (as_ bs : ℚ) (ib eb : Option ℚ),
       ec.to_device_preferred_mode caps = some (.Hs bh bs) →
       2 ≤ Nat.dist ah bh →
       cmp_light_color caps (some (.Hs ah as_)) ib (some ec) eb = false) ∧
    (∀ (caps : Capabilities) (ec : DeviceColor) (a b : ℕ) (ib eb : Option ℚ),
       |ib.getD 1 - eb.getD 1| ≤ (1/100 : ℚ) →
       ec.to_device_preferred_mode caps = some (.Ct b) →
       Nat.dist a b ≤ 10 →
       cmp_light_color caps (some (.Ct a)) ib (some ec) eb = true) ∧
    (∀ (caps : Capabilities) (ec : DeviceColor) (a b : ℕ) (ib eb : Option ℚ),
       ec.to_device_preferred_mode caps = some (.Ct b) →
       11 ≤ Nat.dist a b →
       cmp_light_color caps (some (.Ct a)) ib (some ec) eb = false) ∧
    (∀ (caps : Capabilities) (ec : DeviceColor) (a b : DeviceColor) (ib eb : Option ℚ),
       ec.to_device_preferred_mode caps = some b →
       a.mode ≠ b.mode →
       cmp_light_color caps (some a) ib (some ec) eb = false) := by
  refine ⟨?_, ?_, ?_, ?_, ?_, ?_, ?_, ?_, ?_⟩
  · intro caps inc exp ib eb h
    unfold cmp_light_color
    rw [if_pos h]
  · intro caps ib eb
    unfold cmp_light_color
    by_cases h : |ib.getD 1 - eb.getD 1| > (1/100 : ℚ)
    · rw [if_pos h, eq_comm, decide_eq_false_iff_not]
      exact not_le.mpr h
    · rw [if_neg h]
      have hle := not_lt.mp h
      simp only [one_div] at hle
      simp [hle]
  · intro caps ec ax ay bx bY ib eb hbri hconv hx hy
    unfold cmp_light_color
    rw [if_neg (not_lt.mpr hbri)]
    simp only [Option.some_bind, hconv]
    by_cases heq : (some (DeviceColor.Xy ax ay) : Option DeviceColor) = some (.Xy bx bY)
    · rw [if_pos heq]
    · rw [if_neg heq]
      simp only [one_div] at hx hy
      simp [hx, hy]
  · intro caps ec ax ay bx bY ib eb hconv hor
    unfold cmp_light_color
    split
    · rfl
    · simp only [Option.some_bind, hconv]
      have hne : (some (DeviceColor.Xy ax ay) : Option DeviceColor) ≠ some (.Xy bx bY) := by
        intro heq
        simp only [Option.some_inj, DeviceColor.Xy.injEq] at heq
        rcases heq with ⟨rfl, rfl⟩
        rcases hor with h | h <;> rw [sub_self, abs_zero] at h <;> norm_num at h
      rw [if_neg hne]
      rcases hor with h | h
      · have hx := not_le.mpr h
        simp only [one_div] at hx
        simp [hx]
      · have hy := not_le.mpr h
        simp only [one_div] at hy
        simp [hy]
  · intro caps ec ah bh as_ bs ib eb hbri hconv hh hs
    unfold cmp_light_color
    rw [if_neg (not_lt.mpr hbri)]
    simp only [Option.some_bind, hconv]
    by_cases heq : (some (DeviceColor.Hs ah as_) : Option DeviceColor) = some (.Hs bh bs)
    · rw [if_pos heq]
    · rw [if_neg heq]
      simp only [one_div] at hs
      simp [hh, hs]
  · intro caps ec ah bh as_ bs ib eb hconv hh
    unfold cmp_light_color
    split
    · rfl
    · simp only [Option.some_bind, hconv]
      have hne : (some (DeviceColor.Hs ah as_) : Option DeviceColor) ≠ some (.Hs bh bs) := by
        intro heq
        simp only [Option.some_inj, DeviceColor.Hs.injEq] at heq
        rcases heq with ⟨rfl, rfl⟩
        rw [Nat.dist_self] at hh
        omega
      rw [if_neg hne]
      simp [not_le.mpr (lt_of_lt_of_le one_lt_two hh)]
  · intro caps ec a b ib eb hbri hconv hct
    unfold cmp_light_color
    rw [if_neg (not_lt.mpr hbri)]
    simp only [Option.some_bind, hconv]
    by_cases heq : (some (DeviceColor.Ct a) : Option DeviceColor) = some (.Ct b)
    · rw [if_pos heq]
    · rw [if_neg heq]
      simp [hct]
  · intro caps ec a b ib eb hconv hct
    unfold cmp_light_color
    split
    · rfl
    · simp only [Option.some_bind, hconv]
      have hne : (some (DeviceColor.Ct a) : Option DeviceColor) ≠ some (.Ct b) := by
        intro heq
        simp only [Option.some_inj, DeviceColor.Ct.injEq] at heq
        rw [heq, Nat.dist_self] at hct
        omega
      rw [if_neg hne]
      simp [not_le.mpr (lt_of_lt_of_le (by norm_num : (10 : ℕ) < 11) hct)]
  · intro caps ec a b ib eb hconv hmode
    unfold cmp_light_color
    split
    · rfl
    · simp only [Option.some_bind, hconv]
      have hne : (some a : Option DeviceColor) ≠ some b := by
        intro heq
        simp only [Option.some_inj] at heq
        exact hmode (by rw [heq])
      rw [if_neg hne]
      cases a <;> cases b <;> simp_all [DeviceColor.mode]

/-- C8 witness: concrete boundary instances — a brightness delta of 0.02
fails; an xy delta of exactly 0.01 passes while 0.0101 fails; a hue delta
of 1 passes; a color-temperature delta of 11 fails. -/
theorem cmp_light_color_tolerances_witness :
    cmp_light_color caps0 none (some 1) none (some (49/50)) = false ∧
    cmp_light_color capsXy (some (.Xy 0 0)) (some 1) (some (.Xy (1/100) 0)) (some 1) = true ∧
    cmp_light_color capsXy (some (.Xy 0 0)) (some 1) (some (.Xy (101/10000) 0)) (some 1) = false ∧
    cmp_light_color capsHs (some (.Hs 10 0)) (some 1) (some (.Hs 11 0)) (some 1) = true ∧
    cmp_light_color capsCt (some (.Ct 3000)) (some 1) (some (.Ct 3011)) (some 1) = false := by
  refine ⟨?_, ?_, ?_, ?_, ?_⟩
  · exact cmp_light_color_tolerances.1 caps0 none none (some 1) (some (49/50))
      (by
        show |(1 : ℚ) - 49/50| > 1/100
        rw [show (1 : ℚ) - 49/50 = 1/50 by norm_num,
          abs_of_nonneg (by norm_num : (0:ℚ) ≤ 1/50)]
        norm_num)
  · exact cmp_light_color_tolerances.2.2.1 capsXy (.Xy (1/100) 0) 0 0 (1/100) 0
      (some 1) (some 1) (by norm_num) rfl
      (by rw [abs_sub_comm, sub_zero, abs_of_nonneg (by norm_num : (0:ℚ) ≤ 1/100)])
      (by norm_num)
  · exact cmp_light_color_tolerances.2.2.2.1 capsXy (.Xy (101/10000) 0) 0 0 (101/10000) 0
      (some 1) (some 1) rfl
      (Or.inl (by
        rw [abs_sub_comm, sub_zero, abs_of_nonneg (by norm_num : (0:ℚ) ≤ 101/10000)]
        norm_num))
  · exact cmp_light_color_tolerances.2.2.2.2.1 capsHs (.Hs 11 0) 10 11 0 0
      (some 1) (some 1) (by norm_num) rfl (by decide) (by norm_num)
  · exact cmp_light_color_tolerances.2.2.2.2.2.2.2.1 capsCt (.Ct 3011) 3000 3011
      (some 1) (some 1) rfl (by decide)

/-- C10 counterexample: a fully-managed device whose observed state is
identical to its resolved expected state except for `transition_ms` DOES
trigger a corrective drift dispatch when the expected color is not
preserved by conversion to the device's preferred representation (here: an
xy color on a device whose capability set accepts no representation, so
conversion yields `none` and the comparator's representation-mismatch
catch-all reports inequality). -/
theorem cmp_transition_counterexample :
    ctrlXyIncoming.data = .Controllable
      { state := { onXyState with transition_ms := some 500 },
        capabilities := caps0, managed := .Full } ∧
    storeXy.get_expected_state ctrlXyStored emptyScenes false = some onXyState ∧
    storeXy.handle_recv_device_state ctrlXyIncoming emptyScenes none =
      .ok { devices := storeXy
            events := [Message.SendDeviceState ctrlFullOn]
            db_writes := [] } := by
  refine ⟨rfl, rfl, ?_⟩
  have hcmp : cmp_device_states
      { state := { power := true, color := some (DeviceColor.Xy 0 0), brightness := some 1,
                   transition_ms := some 500 },
        capabilities := { supported := [] }, managed := ManageKind.Full }
      { power := true, color := some (DeviceColor.Xy 0 0), brightness := some 1,
        transition_ms := none } = false := by
    unfold cmp_device_states cmp_light_color
    norm_num [DeviceColor.to_device_preferred_mode, DeviceColor.mode]
    simp
  have hcur : storeXy.get_device ⟨"int", "dev"⟩ = some ctrlXyStored := rfl
  have hexp : storeXy.get_expected_state ctrlXyStored emptyScenes false = some onXyState := rfl
  unfold Devices.handle_recv_device_state
  simp [ctrlXyIncoming, onXyState, caps0, Device.get_device_key, hcur, hexp, hcmp,
    Device.is_managed, ctrlFullOn, onState,
    DeviceColor.to_device_preferred_mode, DeviceColor.mode]

/-- C10 (amended): the state comparator never reads `transition_ms` — its
result is unchanged if either the expected state's or the device's own
`transition_ms` is replaced; consequently, whenever conversion to the
device's preferred representation leaves the expected color unchanged (in
particular when it is already in that representation), a managed device
whose observed state differs from its expected state only in
`transition_ms` is judged equal and reconcile emits no corrective
dispatch. -/
theorem cmp_device_states_transition_insensitive :
    (∀ (dev : ControllableDevice) (e : ControllableState) (t : Option ℕ),
       cmp_device_states dev { e with transition_ms := t } = cmp_device_states dev e) ∧
    (∀ (dev : ControllableDevice) (t : Option ℕ) (e : ControllableState),
       cmp_device_states { dev with state := { dev.state with transition_ms := t } } e =
         cmp_device_states dev e) ∧
    (∀ (caps : Capabilities) (mk : ManageKind) (e : ControllableState) (t : Option ℕ),
       e.color.bind (·.to_device_preferred_mode caps) = e.color →
       cmp_device_states ⟨{ e with transition_ms := t }, caps, mk⟩ e = true) ∧
    (∀ (self : Devices) (incoming : Device) (scenes : Scenes) (db_device : Option Device)
       (icaps : Capabilities) (imk : ManageKind) (cur : Device)
       (expected : ControllableState) (t : Option ℕ),
       incoming.data = .Controllable
         ⟨{ expected with transition_ms := t }, icaps, imk⟩ →
       incoming.is_managed = true →
       self.get_device incoming.get_device_key = some cur →
       self.get_expected_state cur scenes false = some expected →
       expected.color.bind (·.to_device_preferred_mode icaps) = expected.color →
       ∃ r, self.handle_recv_device_state incoming scenes db_device = .ok r ∧
         (r.events.all fun m => !m.isSendDeviceState) = true) := by
  have h3 : ∀ (caps : Capabilities) (mk : ManageKind) (e : ControllableState) (t : Option ℕ),
      e.color.bind (·.to_device_preferred_mode caps) = e.color →
      cmp_device_states ⟨{ e with transition_ms := t }, caps, mk⟩ e = true := by
    intro caps mk e t hconv
    cases hp : e.power
    · simp [cmp_device_states, hp]
    · cases hc : e.color
      · simp [cmp_device_states, hp, hc]
      · rw [hc] at hconv
        simp only [Option.some_bind] at hconv
        unfold cmp_device_states cmp_light_color
        have h0 : ¬((0:ℚ) > 1/100) := by norm_num
        simp [hp, hc, hconv, sub_self, h0]
  refine ⟨?_, ?_, h3, ?_⟩
  · intro dev e t
    dsimp only [cmp_device_states]
  · intro dev t e
    dsimp only [cmp_device_states]
  intro self incoming scenes db_device icaps imk cur expected t hd hm hcur hexp hconv
  have hcmp := h3 icaps imk expected t hconv
  rcases imk with _ | _ | b
  · exact absurd hm (by simp [Device.is_managed, hd])
  · refine ⟨{ devices := self, events := [], db_writes := [] }, ?_, by simp⟩
    unfold Devices.handle_recv_device_state
    simp [hd, hcur, hexp, hm, hcmp]
  · cases b
    · refine ⟨(self.set_device_state
        { incoming with data := (DeviceData.Controllable
          ⟨{ expected with transition_ms := t }, icaps, .Partial true⟩) }
        scenes false false true).toRecv, ?_, ?_⟩
      · unfold Devices.handle_recv_device_state
        simp [hd, hcur, hexp, hm, hcmp]
      · exact Devices.set_device_state_skip_send self _ scenes false false
    · refine ⟨{ devices := self, events := [], db_writes := [] }, ?_, by simp⟩
      unfold Devices.handle_recv_device_state
      simp [hd, hcur, hexp, hm, hcmp]

/-- C10 witness: a concrete managed device observing its expected state
with a different transition is judged equal and reconcile emits no
corrective dispatch. -/
theorem cmp_device_states_transition_insensitive_witness :
    cmp_device_states ⟨{ onState with transition_ms := some 200 }, caps0, .Full⟩
      onState = true ∧
    (∃ r, storeFullOn.handle_recv_device_state
        { id := "dev", name := "lamp", integration_id := "int", scene := none,
          data := .Controllable
            ⟨{ onState with transition_ms := some 200 }, caps0, .Full⟩ }
        emptyScenes none = .ok r ∧
      (r.events.all fun m => !m.isSendDeviceState) = true) := by
  constructor
  · exact cmp_device_states_transition_insensitive.2.2.1 caps0 .Full onState (some 200) rfl
  · exact cmp_device_states_transition_insensitive.2.2.2 storeFullOn _ emptyScenes none
      caps0 .Full ctrlFullOn onState (some 200) rfl rfl rfl rfl rfl

end Homectl
